import Mathlib

/-!
Verification development for a small Flask HTTP service (`main.py`) exposing
one generic read endpoint over a relational database.  The Python functions
`get_items` (POST `/api/salservice`), `health_check` (GET `/health`) and
`query_to_dict_list` are shallowly embedded below, together with the JSON
value model and a database oracle abstracting the `pg8000` driver.
-/

set_option autoImplicit false

namespace Canias

/-- JSON values carried in request bodies, bound parameters and responses.
Numbers are modelled as integers (the recognized filter values in the spec
are scalars).  Python `None` is `JVal.null`. -/
inductive JVal where
  | null : JVal
  | bool : Bool → JVal
  | num : Int → JVal
  | str : String → JVal
  | arr : List JVal → JVal
  | obj : List (String × JVal) → JVal

/-- A parsed JSON object body: an association list with unique keys, looked
up by first match (Python `dict` access). -/
def JObj := List (String × JVal)

/-- `d.get(k)` / `k in d` on a Python dict: first matching key, if any. -/
def jlookup : JObj → String → Option JVal
  | [], _ => none
  | (k, v) :: rest, key => if k = key then some v else jlookup rest key

/-- Python truthiness test (`not x`) on a JSON value: `None`, `False`, `0`,
`""`, `[]` and `{}` are falsy. -/
def falsy : JVal → Bool
  | .null => true
  | .bool b => !b
  | .num n => n == 0
  | .str s => s == ""
  | .arr l => l.isEmpty
  | .obj l => l.isEmpty

/-- `x is None` on a JSON value. -/
def JVal.isNull : JVal → Bool
  | .null => true
  | _ => false

mutual
/-- Python `str()` as applied by the f-string `f"SELECT * FROM {table_name} ..."`.
Exact for the scalar values the endpoint is specified on (strings pass
through verbatim); container values are rendered as bracketed
comma-separated items, abbreviating Python's quoting of inner strings. -/
def pyStr : JVal → String
  | .null => "None"
  | .bool true => "True"
  | .bool false => "False"
  | .num n => toString n
  | .str s => s
  | .arr l => "[" ++ String.intercalate ", " (pyStrList l) ++ "]"
  | .obj l => "\x7b" ++ String.intercalate ", " (pyStrObj l) ++ "\x7d"

/-- Renders the elements of a JSON array for `pyStr`. -/
def pyStrList : List JVal → List String
  | [] => []
  | v :: vs => pyStr v :: pyStrList vs

/-- Renders the entries of a JSON object for `pyStr`. -/
def pyStrObj : List (String × JVal) → List String
  | [] => []
  | p :: ps => (p.1 ++ ": " ++ pyStr p.2) :: pyStrObj ps
end

/-- The hardcoded `param_mapping` dict of `get_items` (`main.py` 156–166):
recognized request keys paired with the identically-named filter columns,
in source order. -/
def param_mapping : List (String × String) :=
  [("USERNAME", "USERNAME"), ("PASSWORD", "PASSWORD"), ("DOCTYPE", "DOCTYPE"),
   ("DOCNUM", "DOCNUM"), ("DOCITEM", "DOCITEM"), ("CUSTOMER", "CUSTOMER"),
   ("CUSTNAME", "CUSTNAME"), ("MATERIAL", "MATERIAL"), ("QUANTITY", "QUANTITY")]

/-- One iteration of the filter loop (`main.py` 169–172): if the request key
is present with a non-`None` value, append `" AND {column} = ?"` to the
statement and the value to the parameter list; otherwise leave both alone. -/
def addFilter (data : JObj) (acc : String × List JVal) (pc : String × String) :
    String × List JVal :=
  match jlookup data pc.1 with
  | some v => if v.isNull then acc else (acc.1 ++ (" AND " ++ pc.2 ++ " = ?"), acc.2 ++ [v])
  | none => acc

/-- Statement construction of `get_items` (`main.py` 152–172): the base
statement `f"SELECT * FROM {table_name} WHERE 1=1"` extended by the filter
loop over `param_mapping`, alongside the bound-parameter list. -/
def build_query (table_name : String) (data : JObj) : String × List JVal :=
  param_mapping.foldl (addFilter data) ("SELECT * FROM " ++ table_name ++ " WHERE 1=1", [])

/-- Result of a successful statement execution: the column metadata
(pg8000's `result.description`, modelled as name × type-info pairs, from
which `get_items` takes `column[0]`) and the rows in database order. -/
structure DBResult where
  description : List (String × String)
  rows : List (List JVal)

/-- The database layer as seen from one request: connection acquisition
(`get_db_connection`, including its environment check — any exception is an
error message) and statement execution (`conn.run(query, params)`). -/
structure DB where
  connect : Except String Unit
  run : String → List JVal → Except String DBResult

/-- An inbound HTTP request to the query endpoint: Flask's `request.is_json`
flag and the parsed JSON object body. -/
structure Request where
  is_json : Bool
  body : JObj

/-- An HTTP response: status code and JSON body.  The `timestamp` fields of
`/health` bodies are wall-clock values and are not modelled. -/
structure Response where
  status : Nat
  body : JVal

/-- `jsonify({'error': msg}), code` bodies. -/
def errBody (msg : String) : JVal := .obj [("error", .str msg)]

/-- Python dict assignment `d[k] = v`: overwrite in place if the key exists,
else append (insertion order preserved). -/
def dictInsert (d : List (String × JVal)) (k : String) (v : JVal) :
    List (String × JVal) :=
  if d.any (fun p => p.1 = k) then d.map (fun p => if p.1 = k then (k, v) else p)
  else d ++ [(k, v)]

/-- `query_to_dict_list(rows, columns)` (`main.py` 63–71): each row becomes a
dict mapping the i-th column name to `row[i]`, rows kept in order.  The
source's `row[i]` raises `IndexError` on a short row (caught by the generic
handler); the model reads `null` there, a case unreachable for driver
results, whose rows match the column metadata. -/
def query_to_dict_list (rows : List (List JVal)) (columns : List String) :
    List (List (String × JVal)) :=
  rows.map (fun row =>
    columns.enum.foldl (fun d ic => dictInsert d ic.2 (row.getD ic.1 JVal.null)) [])

/-- The `/api/salservice` POST handler `get_items` (`main.py` 138–183):
non-JSON bodies get 400, a missing or falsy `TABLE` gets 400, then the
statement is built and executed, rows are converted to dicts and returned as
a JSON array; any exception from the database layer yields a 500
`Database error` body. -/
def get_items (db : DB) (req : Request) : Response :=
  if !req.is_json then ⟨400, errBody "Request must be JSON"⟩
  else
    let data := req.body
    match jlookup data "TABLE" with
    | none => ⟨400, errBody "Missing required parameter: TABLE"⟩
    | some tv =>
      if falsy tv then ⟨400, errBody "Missing required parameter: TABLE"⟩
      else
        let table_name := pyStr tv
        let qp := build_query table_name data
        match db.connect with
        | .error e => ⟨500, errBody ("Database error: " ++ e)⟩
        | .ok _ =>
          match db.run qp.1 qp.2 with
          | .error e => ⟨500, errBody ("Database error: " ++ e)⟩
          | .ok result =>
            let columns := result.description.map (fun c => c.1)
            let items := query_to_dict_list result.rows columns
            ⟨200, .arr (items.map JVal.obj)⟩

/-- The healthy `/health` body (`main.py` 124–128), timestamp omitted. -/
def healthyBody : JVal :=
  .obj [("status", .str "healthy"), ("database", .str "connected")]

/-- The unhealthy `/health` body (`main.py` 130–135), timestamp omitted. -/
def unhealthyBody (e : String) : JVal :=
  .obj [("status", .str "unhealthy"), ("database", .str "disconnected"),
        ("error", .str e)]

/-- The `/health` handler `health_check` (`main.py` 117–135): acquire a
connection and run `SELECT 1`; success is 200 healthy, any exception is 500
unhealthy with the exception's message in `error`. -/
def health_check (db : DB) : Response :=
  match db.connect with
  | .error e => ⟨500, unhealthyBody e⟩
  | .ok _ =>
    match db.run "SELECT 1" [] with
    | .error e => ⟨500, unhealthyBody e⟩
    | .ok _ => ⟨200, healthyBody⟩

/-- The recognized request key `k` is present in `data` with a non-`None`
value — the condition under which the filter loop appends a condition. -/
def presentNonNull (data : JObj) (k : String) : Bool :=
  match jlookup data k with
  | some v => !v.isNull
  | none => false

/-- The value `data[k]`, defaulting to `None` (only read under
`presentNonNull`). -/
def valOf (data : JObj) (k : String) : JVal :=
  (jlookup data k).getD JVal.null

/-- The entries of `param_mapping` whose request key is present with a
non-`None` value, in `param_mapping` order. -/
def recognized (data : JObj) : List (String × String) :=
  param_mapping.filter (fun pc => presentNonNull data pc.1)

/-- The condition fragments the filter loop appends, in order. -/
def conditions (data : JObj) : List String :=
  (recognized data).map (fun pc => " AND " ++ pc.2 ++ " = ?")

/-- Plain concatenation of a list of strings. -/
def strJoin : List String → String
  | [] => ""
  | s :: rest => s ++ strJoin rest

/-- Number of `?` placeholders in a piece of statement text. -/
def countQ (s : String) : Nat := s.data.count '?'

theorem addFilter_eq (data : JObj) (acc : String × List JVal) (pc : String × String) :
    addFilter data acc pc =
      if presentNonNull data pc.1 = true then
        (acc.1 ++ (" AND " ++ pc.2 ++ " = ?"), acc.2 ++ [valOf data pc.1])
      else acc := by
  unfold addFilter presentNonNull valOf
  cases h : jlookup data pc.1 with
  | none => simp
  | some v => cases v <;> simp [JVal.isNull]

theorem foldl_addFilter (data : JObj) (l : List (String × String))
    (q : String) (ps : List JVal) :
    l.foldl (addFilter data) (q, ps) =
      (q ++ strJoin ((l.filter (fun pc => presentNonNull data pc.1)).map
          (fun pc => " AND " ++ pc.2 ++ " = ?")),
       ps ++ (l.filter (fun pc => presentNonNull data pc.1)).map
          (fun pc => valOf data pc.1)) := by
  induction l generalizing q ps with
  | nil => simp [strJoin]
  | cons hd tl ih =>
    rw [List.foldl_cons, addFilter_eq]
    by_cases h : presentNonNull data hd.1 = true
    · rw [if_pos h, ih]
      simp [List.filter_cons, h, strJoin, String.append_assoc]
    · rw [if_neg h, ih]
      simp [List.filter_cons, h]

theorem build_query_spec (t : String) (data : JObj) :
    build_query t data =
      ("SELECT * FROM " ++ t ++ " WHERE 1=1" ++ strJoin (conditions data),
       (recognized data).map (fun pc => valOf data pc.1)) := by
  rw [build_query, foldl_addFilter]
  rfl

theorem map_fst_filter_fst (p : String → Bool) (l : List (String × String)) :
    (l.filter (fun pc => p pc.1)).map Prod.fst = (l.map Prod.fst).filter p := by
  induction l with
  | nil => rfl
  | cons hd tl ih => by_cases h : p hd.1 <;> simp [List.filter_cons, h, ih]

theorem countQ_append (a b : String) : countQ (a ++ b) = countQ a + countQ b := by
  simp [countQ, String.data_append, List.count_append]

theorem countQ_strJoin (l : List String) (h : ∀ s ∈ l, countQ s = 1) :
    countQ (strJoin l) = l.length := by
  induction l with
  | nil => rfl
  | cons hd tl ih =>
    rw [strJoin, countQ_append, h hd (List.mem_cons_self hd tl),
      ih (fun s hs => h s (List.mem_cons_of_mem hd hs))]
    simp [Nat.add_comm]

/-- Claim C1: for every request body, the statement built by the query
endpoint is the base statement followed by exactly one ` AND {column} = ?`
condition per recognized key present with a non-null value (none for any
other key, recognized-but-absent, null, or unrecognized), and the values of
those keys appear only in the bound-parameter list, never in the statement
text, which is built solely from the fixed column names. -/
theorem C1_bound_filter_conditions (t : String) (data : JObj) :
    (build_query t data).1
        = "SELECT * FROM " ++ t ++ " WHERE 1=1" ++ strJoin (conditions data)
    ∧ conditions data
        = (recognized data).map (fun pc => " AND " ++ pc.2 ++ " = ?")
    ∧ (build_query t data).2 = (recognized data).map (fun pc => valOf data pc.1)
    ∧ ∀ k : String, ((recognized data).map Prod.fst).count k
        = if k ∈ param_mapping.map Prod.fst ∧ presentNonNull data k = true
          then 1 else 0 := by
  refine ⟨by rw [build_query_spec], rfl, by rw [build_query_spec], ?_⟩
  intro k
  have hkeys : (recognized data).map Prod.fst
      = (param_mapping.map Prod.fst).filter (fun k => presentNonNull data k) :=
    map_fst_filter_fst _ _
  have hnd : ((param_mapping.map Prod.fst).filter
      (fun k => presentNonNull data k)).Nodup :=
    List.Nodup.filter _ (by decide)
  rw [hkeys]
  by_cases hk : k ∈ (param_mapping.map Prod.fst).filter
      (fun k => presentNonNull data k)
  · rw [List.count_eq_one_of_mem hnd hk, if_pos]
    exact List.mem_filter.mp hk
  · rw [List.count_eq_zero.mpr hk, if_neg]
    intro hcontra
    exact hk (List.mem_filter.mpr hcontra)

/-- The statement the spec describes for a filterless request:
`SELECT * FROM <table>`. -/
def spec_select (t : String) : String := "SELECT * FROM " ++ t

/-- Claim C3: when no recognized filter key is present with a non-null
value, the built statement is the spec's `SELECT * FROM <table>` extended
only by the vacuous `WHERE 1=1`, with an empty parameter list. -/
theorem C3_no_filters (t : String) (data : JObj)
    (h : ∀ pc ∈ param_mapping, presentNonNull data pc.1 = false) :
    build_query t data = (spec_select t ++ " WHERE 1=1", []) := by
  rw [build_query_spec]
  have hrec : recognized data = [] := by
    refine List.filter_eq_nil_iff.mpr ?_
    intro pc hpc
    simp [h pc hpc]
  simp [conditions, hrec, strJoin, spec_select, String.append_empty]

theorem C3_no_filters_witness :
    build_query "items" [("TABLE", JVal.str "items"), ("FOO", JVal.num 1)]
      = (spec_select "items" ++ " WHERE 1=1", []) :=
  C3_no_filters "items" _ (by decide)

/-- Claim C4: every caller-supplied `TABLE` string is interpolated verbatim
into the statement text, which begins with `SELECT * FROM ` immediately
followed by that exact string, unvalidated and unescaped. -/
theorem C4_table_interpolated_verbatim (t : String) (data : JObj) :
    ∃ rest, (build_query t data).1 = "SELECT * FROM " ++ (t ++ rest) := by
  refine ⟨" WHERE 1=1" ++ strJoin (conditions data), ?_⟩
  rw [build_query_spec]
  simp [String.append_assoc]

/-- Claim C9: the number of `?` placeholders appended to the statement
equals the length of the bound-parameter list; the i-th condition and the
i-th parameter come from the same recognized entry; the condition columns
follow the fixed `param_mapping` order (a sublist of it); and the statement
text depends only on which recognized keys are present non-null, not on the
request body's key order or values. -/
theorem C9_placeholders_align_with_params (t : String) (data : JObj) :
    countQ (strJoin (conditions data)) = (build_query t data).2.length
    ∧ (∀ i : Nat, (conditions data)[i]?
          = ((recognized data)[i]?).map (fun pc => " AND " ++ pc.2 ++ " = ?")
        ∧ (build_query t data).2[i]?
          = ((recognized data)[i]?).map (fun pc => valOf data pc.1))
    ∧ List.Sublist ((recognized data).map Prod.fst) (param_mapping.map Prod.fst)
    ∧ (∀ data' : JObj,
        (∀ pc ∈ param_mapping, presentNonNull data pc.1 = presentNonNull data' pc.1) →
        conditions data = conditions data'
          ∧ (build_query t data).1 = (build_query t data').1) := by
  have hone : ∀ pc ∈ param_mapping, countQ (" AND " ++ pc.2 ++ " = ?") = 1 := by
    decide
  refine ⟨?_, ?_, ?_, ?_⟩
  · rw [build_query_spec]
    rw [countQ_strJoin]
    · simp [conditions]
    · intro s hs
      rw [conditions] at hs
      obtain ⟨pc, hpc, rfl⟩ := List.mem_map.mp hs
      exact hone pc (List.mem_of_mem_filter hpc)
  · intro i
    constructor
    · rw [conditions, List.getElem?_map]
    · rw [build_query_spec, List.getElem?_map]
  · exact List.Sublist.map Prod.fst (List.filter_sublist param_mapping)
  · intro data' hsame
    have hrec : recognized data = recognized data' := by
      rw [recognized, recognized]
      exact List.filter_congr (fun pc hpc => by rw [hsame pc hpc])
    constructor
    · rw [conditions, conditions, hrec]
    · rw [build_query_spec, build_query_spec, conditions, conditions, hrec]

/-- A database stub that accepts the connection and returns an empty result,
used to instantiate endpoint theorems at concrete inputs. -/
def dbStub : DB := ⟨Except.ok (), fun _ _ => Except.ok ⟨[], []⟩⟩

/-- A database stub whose connection acquisition fails with message `boom`. -/
def dbConnFail : DB := ⟨Except.error "boom", fun _ _ => Except.ok ⟨[], []⟩⟩

/-- A database stub whose connection acquisition fails with message `down`. -/
def dbDown : DB := ⟨Except.error "down", fun _ _ => Except.ok ⟨[], []⟩⟩

/-- A database stub whose connection acquisition fails with an empty
exception message, as `raise Exception()` would produce under `str`. -/
def dbEmptyMsg : DB := ⟨Except.error "", fun _ _ => Except.ok ⟨[], []⟩⟩

/-- Claim C2: a JSON request whose body lacks `TABLE` or maps it to the
empty string gets HTTP 400 with exactly the body
`{"error": "Missing required parameter: TABLE"}`, never a 500. -/
theorem C2_missing_table_400 (db : DB) (req : Request)
    (hj : req.is_json = true)
    (h : jlookup req.body "TABLE" = none
      ∨ jlookup req.body "TABLE" = some (JVal.str "")) :
    get_items db req = ⟨400, errBody "Missing required parameter: TABLE"⟩
      ∧ (get_items db req).status ≠ 500 := by
  have heq : get_items db req
      = ⟨400, errBody "Missing required parameter: TABLE"⟩ := by
    rw [get_items]
    rcases h with h | h <;> simp [hj, h, falsy]
  exact ⟨heq, by rw [heq]; simp⟩

theorem C2_witness :
    get_items dbStub ⟨true, [("USERNAME", JVal.str "u")]⟩
        = ⟨400, errBody "Missing required parameter: TABLE"⟩
      ∧ (get_items dbStub ⟨true, [("USERNAME", JVal.str "u")]⟩).status ≠ 500 :=
  C2_missing_table_400 dbStub ⟨true, [("USERNAME", JVal.str "u")]⟩ rfl (Or.inl rfl)

/-- Claim C10: any falsy JSON value under `TABLE` — empty string, zero,
false, null, empty array or empty object — is rejected with the same 400
response as an absent `TABLE`, so rejection is broader than the spec's
missing-or-empty wording. -/
theorem C10_falsy_table_rejected (db : DB) (req : Request) (v : JVal)
    (hj : req.is_json = true)
    (hv : jlookup req.body "TABLE" = some v) (hf : falsy v = true) :
    get_items db req = ⟨400, errBody "Missing required parameter: TABLE"⟩ := by
  rw [get_items]
  simp [hj, hv, hf]

theorem C10_witness :
    get_items dbStub ⟨true, [("TABLE", JVal.num 0)]⟩
      = ⟨400, errBody "Missing required parameter: TABLE"⟩ :=
  C10_falsy_table_rejected dbStub ⟨true, [("TABLE", JVal.num 0)]⟩ (JVal.num 0)
    rfl rfl rfl

/-- Claim C7: a non-JSON POST body gets HTTP 400 with exactly the body
`{"error": "Request must be JSON"}` and never a 500, whatever the database
does. -/
theorem C7_non_json_400 (db : DB) (body : JObj) :
    get_items db ⟨false, body⟩ = ⟨400, errBody "Request must be JSON"⟩
      ∧ (get_items db ⟨false, body⟩).status ≠ 500 := by
  have heq : get_items db ⟨false, body⟩ = ⟨400, errBody "Request must be JSON"⟩ := by
    rw [get_items]
    simp
  exact ⟨heq, by rw [heq]; simp⟩

/-- Claim C6: any exception from the database layer — whether connection
acquisition or statement execution fails — yields HTTP 500 with exactly the
body `{"error": "Database error: <message>"}` around the underlying
message; both kinds produce the identical response, so they are not
distinguished at the API level, and no other content (such as a stack
trace) appears in the body. -/
theorem C6_database_error_500 (db : DB) (req : Request) (tv : JVal) (e : String)
    (hj : req.is_json = true)
    (ht : jlookup req.body "TABLE" = some tv) (hf : falsy tv = false) :
    (db.connect = Except.error e →
      get_items db req = ⟨500, errBody ("Database error: " ++ e)⟩)
    ∧ (∀ u : Unit, db.connect = Except.ok u →
        db.run (build_query (pyStr tv) req.body).1
            (build_query (pyStr tv) req.body).2 = Except.error e →
        get_items db req = ⟨500, errBody ("Database error: " ++ e)⟩) := by
  constructor
  · intro hc
    rw [get_items]
    simp [hj, ht, hf, hc]
  · intro u hc hr
    rw [get_items]
    simp [hj, ht, hf, hc, hr]

theorem C6_witness :
    get_items dbConnFail ⟨true, [("TABLE", JVal.str "t")]⟩
      = ⟨500, errBody "Database error: boom"⟩ :=
  (C6_database_error_500 dbConnFail ⟨true, [("TABLE", JVal.str "t")]⟩
    (JVal.str "t") "boom" rfl rfl rfl).1 rfl

theorem C9_witness :
    conditions [("DOCNUM", JVal.num 5), ("USERNAME", JVal.str "u")]
      = conditions [("USERNAME", JVal.str "u"), ("JUNK", JVal.bool true),
          ("DOCNUM", JVal.num 5)] :=
  ((C9_placeholders_align_with_params "T"
      [("DOCNUM", JVal.num 5), ("USERNAME", JVal.str "u")]).2.2.2
    [("USERNAME", JVal.str "u"), ("JUNK", JVal.bool true), ("DOCNUM", JVal.num 5)]
    (by decide)).1

theorem dictInsert_not_mem (d : List (String × JVal)) (k : String) (v : JVal)
    (h : ∀ p ∈ d, p.1 ≠ k) : dictInsert d k v = d ++ [(k, v)] := by
  rw [dictInsert, if_neg]
  intro hc
  rw [List.any_eq_true] at hc
  obtain ⟨p, hp, hpk⟩ := hc
  exact h p hp (by simpa using hpk)

theorem foldl_dictInsert (r : List JVal) (cols : List String) (n : Nat)
    (d : List (String × JVal))
    (hd : ∀ c ∈ cols, ∀ p ∈ d, p.1 ≠ c) (hnd : cols.Nodup)
    (hlen : n + cols.length ≤ r.length) :
    (List.enumFrom n cols).foldl
        (fun d ic => dictInsert d ic.2 (r.getD ic.1 JVal.null)) d
      = d ++ cols.zip (r.drop n) := by
  induction cols generalizing n d with
  | nil => simp
  | cons c cs ih =>
    have hn : n < r.length := by
      simp only [List.length_cons] at hlen
      omega
    have hins : dictInsert d c (r.getD n JVal.null)
        = d ++ [(c, r.getD n JVal.null)] :=
      dictInsert_not_mem d c _ (fun p hp => hd c (List.mem_cons_self c cs) p hp)
    rw [List.enumFrom_cons, List.foldl_cons,
      show dictInsert d (n, c).2 (r.getD (n, c).1 JVal.null)
          = d ++ [(c, r.getD n JVal.null)] from hins]
    rw [ih (n + 1) (d ++ [(c, r.getD n JVal.null)]) ?_ hnd.of_cons ?_]
    · rw [List.drop_eq_getElem_cons hn, List.zip_cons_cons,
        List.getD_eq_getElem r JVal.null hn, List.append_assoc]
      rfl
    · intro c' hc' p hp
      rcases List.mem_append.mp hp with hp | hp
      · exact hd c' (List.mem_cons_of_mem c hc') p hp
      · have hpc : p = (c, r.getD n JVal.null) := by simpa using hp
        rw [hpc]
        intro hcontra
        have hcc : c = c' := hcontra
        rw [hcc] at hnd
        exact (List.nodup_cons.mp hnd).1 hc'
    · simp only [List.length_cons] at hlen
      omega

/-- Claim C5: `query_to_dict_list` turns each row into the ordered pairing
of the column names with that row's cells — column order exactly as in the
result metadata — and maps over the rows in order, so the returned sequence
preserves database row order with no sort.  Stated for distinct column
names and rows at least as long as the column list, which driver results
satisfy. -/
theorem C5_rows_to_ordered_dicts (rows : List (List JVal)) (columns : List String)
    (hlen : ∀ r ∈ rows, columns.length ≤ r.length) (hnd : columns.Nodup) :
    query_to_dict_list rows columns = rows.map (fun r => columns.zip r) := by
  rw [query_to_dict_list]
  apply List.map_congr_left
  intro r hr
  have h := foldl_dictInsert r columns 0 [] (by simp) hnd
    (by simpa using hlen r hr)
  rw [List.drop_zero] at h
  simpa [List.enum] using h

theorem C5_witness :
    query_to_dict_list [[JVal.num 1, JVal.str "a"], [JVal.num 2, JVal.str "b"]]
        ["id", "name"]
      = [[("id", JVal.num 1), ("name", JVal.str "a")],
         [("id", JVal.num 2), ("name", JVal.str "b")]] := by
  rw [C5_rows_to_ordered_dicts _ _ (by decide) (by decide)]
  rfl

/-- Counterexample to claim C8 as stated: a connection failure whose
exception carries the empty message (`str` of a bare `Exception()` is `""`)
makes `/health` answer 500 unhealthy/disconnected with an EMPTY `error`
field, refuting the claim's "non-empty error field". -/
theorem C8_counterexample_empty_error :
    health_check dbEmptyMsg
        = ⟨500, JVal.obj [("status", JVal.str "unhealthy"),
            ("database", JVal.str "disconnected"), ("error", JVal.str "")]⟩
      ∧ ("" : String).isEmpty = true :=
  ⟨rfl, rfl⟩

/-- Claim C8 as amended: `/health` answers 200 healthy/connected exactly
when connection acquisition and the `SELECT 1` probe both succeed;
otherwise it answers 500 unhealthy/disconnected with the `error` field
equal to the underlying exception's message (which the code does not force
to be non-empty). -/
theorem C8_amended_health_iff (db : DB) :
    (health_check db = ⟨200, healthyBody⟩
      ↔ db.connect = Except.ok ()
          ∧ ∃ r, db.run "SELECT 1" [] = Except.ok r)
    ∧ (∀ e, db.connect = Except.error e →
        health_check db = ⟨500, unhealthyBody e⟩)
    ∧ (∀ e u, db.connect = Except.ok u →
        db.run "SELECT 1" [] = Except.error e →
        health_check db = ⟨500, unhealthyBody e⟩) := by
  refine ⟨⟨?_, ?_⟩, ?_, ?_⟩
  · intro h
    rcases hc : db.connect with e | u
    · rw [health_check, hc] at h
      simp at h
    · rcases hr : db.run "SELECT 1" [] with e | r
      · rw [health_check, hc, hr] at h
        simp at h
      · cases u
        exact ⟨rfl, r, rfl⟩
  · rintro ⟨hc, r, hr⟩
    rw [health_check, hc, hr]
  · intro e hc
    rw [health_check, hc]
  · intro e u hc hr
    rw [health_check, hc, hr]

theorem C8_amended_witness :
    health_check dbDown = ⟨500, unhealthyBody "down"⟩ :=
  (C8_amended_health_iff dbDown).2.1 "down" rfl

end Canias
